import Mathlib

/-!
Verification of `backoff.go` (package `retry`): a retry-coordination layer
for goworker jobs.  The Go code is shallowly embedded below: 32-bit machine
words become `Nat` with explicit reduction modulo `2 ^ 32`, Redis effects
become explicit state passing over `RedisState`, and each fallible external
call (GetConn, SETNX, INCR, EXPIRE, DEL, Enqueue, EnqueueIn, the wrapped
worker) is driven by an `Env` record describing its outcome for one
invocation.  A Go panic (out-of-range slice index in `retryDelay`) is
modelled as `none`.
-/

namespace GoworkerRetry

/-! ### SHA-1 (`crypto/sha1`), over `Nat` with explicit mod-2^32 arithmetic -/

/-- Reduce to a 32-bit word. -/
def w32 (x : Nat) : Nat := x % 4294967296

/-- Rotate a 32-bit word left by `n` bits. -/
def rotl32 (n x : Nat) : Nat := w32 ((x <<< n) ||| (x >>> (32 - n)))

/-- UTF-8 encoding of one code point. -/
def utf8Bytes (c : Nat) : List Nat :=
  if c < 128 then [c]
  else if c < 2048 then [192 + c / 64, 128 + c % 64]
  else if c < 65536 then [224 + c / 4096, 128 + (c / 64) % 64, 128 + c % 64]
  else [240 + c / 262144, 128 + (c / 4096) % 64, 128 + (c / 64) % 64, 128 + c % 64]

/-- The UTF-8 bytes of a string (Go strings are UTF-8 byte sequences). -/
def strBytes (s : String) : List Nat :=
  (s.data.map (fun c => utf8Bytes c.toNat)).flatten

/-- SHA-1 message padding: append `0x80`, zero bytes, and the 64-bit
big-endian bit length, to a multiple of 64 bytes. -/
def sha1Pad (msg : List Nat) : List Nat :=
  let len := msg.length
  let zeros := (119 - len % 64) % 64
  msg ++ [128] ++ List.replicate zeros 0 ++
    (List.range 8).map (fun i => ((8 * len) >>> (8 * (7 - i))) % 256)

/-- Big-endian word from a byte list. -/
def beWord (bs : List Nat) : Nat := bs.foldl (fun acc b => acc * 256 + b) 0

/-- The 80-entry message schedule of block `blk` of the padded message. -/
def sha1W (padded : List Nat) (blk : Nat) : Array Nat :=
  let w0 := ((List.range 16).map
    (fun t => beWord ((padded.drop (64 * blk + 4 * t)).take 4))).toArray
  (List.range 64).foldl (fun w i =>
    let t := i + 16
    w.push (rotl32 1 ((w.getD (t - 3) 0) ^^^ (w.getD (t - 8) 0) ^^^
      (w.getD (t - 14) 0) ^^^ (w.getD (t - 16) 0)))) w0

/-- The SHA-1 round function. -/
def sha1F (t b c d : Nat) : Nat :=
  if t < 20 then (b &&& c) ||| ((b ^^^ 4294967295) &&& d)
  else if t < 40 then b ^^^ c ^^^ d
  else if t < 60 then (b &&& c) ||| (b &&& d) ||| (c &&& d)
  else b ^^^ c ^^^ d

/-- The SHA-1 round constants. -/
def sha1K (t : Nat) : Nat :=
  if t < 20 then 1518500249
  else if t < 40 then 1859775393
  else if t < 60 then 2400959708
  else 3395469782

/-- Process one 64-byte block, updating the five-word digest state. -/
def sha1Block (padded : List Nat) (blk : Nat) (h : Nat × Nat × Nat × Nat × Nat) :
    Nat × Nat × Nat × Nat × Nat :=
  let w := sha1W padded blk
  let (h0, h1, h2, h3, h4) := h
  let (a, b, c, d, e) := (List.range 80).foldl
    (fun (st : Nat × Nat × Nat × Nat × Nat) t =>
      let (a, b, c, d, e) := st
      let tmp := w32 (rotl32 5 a + sha1F t b c d + e + sha1K t + w.getD t 0)
      (tmp, a, rotl32 30 b, c, d))
    (h0, h1, h2, h3, h4)
  (w32 (h0 + a), w32 (h1 + b), w32 (h2 + c), w32 (h3 + d), w32 (h4 + e))

/-- Lowercase hex digit. -/
def hexDigit (n : Nat) : Char :=
  if n < 10 then Char.ofNat (48 + n) else Char.ofNat (87 + n)

/-- Eight-hex-digit rendering of a 32-bit word. -/
def hex8 (x : Nat) : String :=
  String.mk ((List.range 8).map (fun i => hexDigit ((x >>> (4 * (7 - i))) % 16)))

/-- `fmt.Sprintf("%x", sha1.Sum(bytes of s))`: the 40-character lowercase
hex SHA-1 digest of a string. -/
def sha1hex (s : String) : String :=
  let padded := sha1Pad (strBytes s)
  let nblocks := padded.length / 64
  let (h0, h1, h2, h3, h4) := (List.range nblocks).foldl
    (fun h blk => sha1Block padded blk h)
    (1732584193, 4023233417, 2562383102, 271733878, 3285377520)
  hex8 h0 ++ hex8 h1 ++ hex8 h2 ++ hex8 h3 ++ hex8 h4

/-! ### The `backoff` struct and its pure helpers -/

/-- The Go `backoff` struct.  The private `worker` closure is not a field
here: the outcome of one execution of the wrapped worker is supplied by the
`Env` of each invocation (the Go code only ever calls it once per
invocation and inspects its error). -/
structure backoff where
  jobName : String
  RetryLimit : Int
  BackoffStrategy : List Int
deriving DecidableEq, Repr

/-- The default backoff schedule set by `NewBackoff` (seconds). -/
def defaultBackoffStrategy : List Int := [0, 60, 600, 3600, 10800, 21600]

/-- `NewBackoff`: default strategy, `RetryLimit = len(BackoffStrategy)`. -/
def NewBackoff (jobName : String) : backoff :=
  { jobName := jobName
    BackoffStrategy := defaultBackoffStrategy
    RetryLimit := (defaultBackoffStrategy.length : Int) }

/-- `eb.retryDelay(attempt)`: clamp `attempt` to the last valid index and
index the schedule.  `none` models the Go panic on an out-of-range index
(negative `attempt`, or an empty `BackoffStrategy`). -/
def backoff.retryDelay (eb : backoff) (attempt : Int) : Option Int :=
  let a := if attempt > (eb.BackoffStrategy.length : Int) - 1
           then (eb.BackoffStrategy.length : Int) - 1 else attempt
  if a < 0 then none else eb.BackoffStrategy.get? a.toNat

/-- The canonicalized argument string: each argument is rendered with
`fmt.Sprintf("%v", ·)` (arguments are modelled here by those renderings,
as `String`s) and the renderings are joined with `"-"`. -/
def canonicalArgs (args : List String) : String := String.intercalate "-" args

/-- `eb.retryIdentifier(args)`: SHA-1 hex digest of the canonicalized
argument string, with spaces removed (`strings.Replace(hash, " ", "", -1)`;
a no-op on hex output). -/
def retryIdentifier (args : List String) : String :=
  (sha1hex (canonicalArgs args)).replace " " ""

/-- `eb.retryKey(args)`: `"resque:resque-retry:<jobName>:<identifier>"`. -/
def backoff.retryKey (eb : backoff) (args : List String) : String :=
  String.intercalate ":" ["resque", "resque-retry", eb.jobName, retryIdentifier args]

/-! ### State, environment and the worker closure -/

/-- The Redis state at the single retry key of one job identity:
the stored counter value (`none` = key absent) and its TTL. -/
structure RedisState where
  counter : Option Int
  ttl : Option Int
deriving DecidableEq, Repr

/-- A successful resubmission performed through go-resque. -/
inductive Resubmission where
  | enqueue (queue jobName : String) (args : List String)
  | enqueueIn (delaySeconds : Int) (queue jobName : String) (args : List String)
deriving DecidableEq, Repr

/-- The outcomes of the external calls made during one invocation of the
closure: `some e` on the error fields means that call fails with error
message `e`; `jobResult = some e` means the wrapped worker returns error
`e` (`none`: it succeeds); `expireFails` / `delFails` make the
corresponding ignored-result Redis call fail. -/
structure Env where
  getConnErr : Option String
  setnxErr : Option String
  incrErr : Option String
  jobResult : Option String
  expireFails : Bool
  enqueueErr : Option String
  delFails : Bool
deriving DecidableEq, Repr

/-- The observable outcome of one invocation of the closure: the returned
error (`none` = nil), the final Redis state, whether the wrapped worker was
executed, the TTL successfully applied by the EXPIRE call (if any), and
the resubmission successfully handed to the queue (if any). -/
structure WFResult where
  result : Option String
  state : RedisState
  jobRan : Bool
  expireSet : Option Int
  resub : Option Resubmission
deriving DecidableEq, Repr

/-- The attempt number the INCR yields from pre-state `s`: SETNX writes
`-1` when the key is absent, INCR then adds one. -/
def attemptOf (s : RedisState) : Int := s.counter.getD (-1) + 1

/-- One invocation of the closure returned by `eb.WorkerFunc()`, traced
line by line from `backoff.go` (`none` = the invocation panics in
`retryDelay`).  `defer goworker.PutConn(conn)` has no observable effect
and is omitted. -/
def backoff.WorkerFunc (eb : backoff) (env : Env) (queue : String)
    (args : List String) (s : RedisState) : Option WFResult :=
  -- conn, err := goworker.GetConn()
  match env.getConnErr with
  | some e => some { result := some e, state := s, jobRan := false,
                     expireSet := none, resub := none }
  | none =>
  -- _, err = conn.Do("SETNX", retryKey, -1)
  match env.setnxErr with
  | some e => some { result := some e, state := s, jobRan := false,
                     expireSet := none, resub := none }
  | none =>
  let s1 : RedisState := { s with counter := some (s.counter.getD (-1)) }
  -- retryAttempt, err := redis.Int(conn.Do("INCR", retryKey))
  match env.incrErr with
  | some e => some { result := some e, state := s1, jobRan := false,
                     expireSet := none, resub := none }
  | none =>
  let retryAttempt : Int := s1.counter.getD 0 + 1
  let s2 : RedisState := { s1 with counter := some retryAttempt }
  -- err = eb.worker(queue, args...)
  let jobErr := env.jobResult
  -- redis.Int(conn.Do("EXPIRE", retryKey, eb.retryDelay(retryAttempt)+3600))
  match eb.retryDelay retryAttempt with
  | none => none
  | some d =>
  let expireVal : Option Int := if env.expireFails then none else some (d + 3600)
  let s3 : RedisState := if env.expireFails then s2 else { s2 with ttl := some (d + 3600) }
  match jobErr with
  | none =>
    -- success: conn.Do("DEL", retryKey); return nil
    let s4 := if env.delFails then s3 else { counter := none, ttl := none }
    some { result := none, state := s4, jobRan := true,
           expireSet := expireVal, resub := none }
  | some jerr =>
    if retryAttempt ≥ eb.RetryLimit then
      -- exhausted: conn.Do("DEL", retryKey); return the wrapped error
      let s4 := if env.delFails then s3 else { counter := none, ttl := none }
      some { result := some ("Failed after " ++ toString (retryAttempt + 1) ++
                             " attempts: " ++ jerr),
             state := s4, jobRan := true, expireSet := expireVal, resub := none }
    else
      -- seconds := eb.retryDelay(retryAttempt)
      if d ≤ 0 then
        match env.enqueueErr with
        | some e => some { result := some e, state := s3, jobRan := true,
                           expireSet := expireVal, resub := none }
        | none => some { result := none, state := s3, jobRan := true,
                         expireSet := expireVal,
                         resub := some (.enqueue queue eb.jobName args) }
      else
        match env.enqueueErr with
        | some e => some { result := some e, state := s3, jobRan := true,
                           expireSet := expireVal, resub := none }
        | none => some { result := none, state := s3, jobRan := true,
                         expireSet := expireVal,
                         resub := some (.enqueueIn d queue eb.jobName args) }

/-- The environment of a call whose wrapped worker fails with `jerr` and
whose store and queue are healthy. -/
def alwaysFailEnv (jerr : String) : Env :=
  { getConnErr := none, setnxErr := none, incrErr := none,
    jobResult := some jerr, expireFails := false, enqueueErr := none,
    delFails := false }

/-- Iterate `n` successive invocations of the closure under the same
environment, threading the Redis state; results in call order. -/
def iterateCalls (eb : backoff) (env : Env) (queue : String)
    (args : List String) : Nat → RedisState → Option (RedisState × List WFResult)
  | 0, s => some (s, [])
  | n + 1, s =>
    match eb.WorkerFunc env queue args s with
    | none => none
    | some r =>
      match iterateCalls eb env queue args n r.state with
      | none => none
      | some (s', rs) => some (s', r :: rs)

/-! ### Expected outcomes of a run that fails every time -/

/-- The resubmission the closure performs for computed delay `d`:
immediate `Enqueue` when `d ≤ 0`, else `EnqueueIn d`. -/
def scheduledResub (eb : backoff) (queue : String) (args : List String)
    (d : Int) : Resubmission :=
  if d ≤ 0 then .enqueue queue eb.jobName args
  else .enqueueIn d queue eb.jobName args

/-- The schedule entry at (in-range) index `i`. -/
def delayAt (eb : backoff) (i : Nat) : Int := eb.BackoffStrategy.getD i 0

/-- Expected outcome of the invocation observing attempt number `i < L`
under a healthy store when the worker fails: no error, counter at `i`,
TTL `delayAt i + 3600`, and a resubmission with delay `delayAt i`. -/
def retryCallResult (eb : backoff) (queue : String) (args : List String)
    (i : Nat) : WFResult :=
  { result := none
    state := { counter := some (i : Int), ttl := some (delayAt eb i + 3600) }
    jobRan := true
    expireSet := some (delayAt eb i + 3600)
    resub := some (scheduledResub eb queue args (delayAt eb i)) }

/-- Expected outcome of the exhausting invocation (attempt number `L`):
the wrapped error is returned, the counter key is deleted, no
resubmission; the EXPIRE before it used the clamped last delay. -/
def exhaustedCallResult (eb : backoff) (jerr : String) : WFResult :=
  { result := some ("Failed after " ++
      toString ((eb.BackoffStrategy.length : Int) + 1) ++ " attempts: " ++ jerr)
    state := { counter := none, ttl := none }
    jobRan := true
    expireSet := some (delayAt eb (eb.BackoffStrategy.length - 1) + 3600)
    resub := none }

/-- C1: the seven-call trace of an always-failing job under the default
schedule. -/
theorem C1_default_schedule_trace :
    iterateCalls (NewBackoff "myjob") (alwaysFailEnv "boom") "q" ["a1"] 7
      { counter := none, ttl := none } =
    some ({ counter := none, ttl := none },
      [ { result := none, state := { counter := some 0, ttl := some 3600 },
          jobRan := true, expireSet := some 3600,
          resub := some (.enqueue "q" "myjob" ["a1"]) },
        { result := none, state := { counter := some 1, ttl := some 3660 },
          jobRan := true, expireSet := some 3660,
          resub := some (.enqueueIn 60 "q" "myjob" ["a1"]) },
        { result := none, state := { counter := some 2, ttl := some 4200 },
          jobRan := true, expireSet := some 4200,
          resub := some (.enqueueIn 600 "q" "myjob" ["a1"]) },
        { result := none, state := { counter := some 3, ttl := some 7200 },
          jobRan := true, expireSet := some 7200,
          resub := some (.enqueueIn 3600 "q" "myjob" ["a1"]) },
        { result := none, state := { counter := some 4, ttl := some 14400 },
          jobRan := true, expireSet := some 14400,
          resub := some (.enqueueIn 10800 "q" "myjob" ["a1"]) },
        { result := none, state := { counter := some 5, ttl := some 25200 },
          jobRan := true, expireSet := some 25200,
          resub := some (.enqueueIn 21600 "q" "myjob" ["a1"]) },
        { result := some "Failed after 7 attempts: boom",
          state := { counter := none, ttl := none },
          jobRan := true, expireSet := some 25200, resub := none } ]) := by
  decide

/-! ### Helper lemmas about `retryDelay` and the always-failing run -/

lemma retryDelay_lt (eb : backoff) (k : Nat) (hk : k < eb.BackoffStrategy.length) :
    eb.retryDelay (k : Int) = some (delayAt eb k) := by
  unfold backoff.retryDelay
  have h1 : ¬((k : Int) > (eb.BackoffStrategy.length : Int) - 1) := by omega
  have h2 : ¬((k : Int) < 0) := by omega
  simp only [h1, if_false, h2, Int.toNat_natCast]
  rw [List.get?_eq_getElem?, List.getElem?_eq_getElem hk, delayAt,
    List.getD_eq_getElem _ _ hk]

lemma retryDelay_ge (eb : backoff) (a : Int) (hne : eb.BackoffStrategy ≠ [])
    (ha : (eb.BackoffStrategy.length : Int) ≤ a) :
    eb.retryDelay a = some (delayAt eb (eb.BackoffStrategy.length - 1)) := by
  have hpos : 0 < eb.BackoffStrategy.length := List.length_pos.mpr hne
  unfold backoff.retryDelay
  have h1 : a > (eb.BackoffStrategy.length : Int) - 1 := by omega
  have h2 : ¬((eb.BackoffStrategy.length : Int) - 1 < 0) := by omega
  have h3 : ((eb.BackoffStrategy.length : Int) - 1).toNat =
      eb.BackoffStrategy.length - 1 := by omega
  have h4 : eb.BackoffStrategy.length - 1 < eb.BackoffStrategy.length := by omega
  simp only [h1, if_true, h2, h3]
  rw [List.get?_eq_getElem?, List.getElem?_eq_getElem h4, delayAt,
    List.getD_eq_getElem _ _ h4]
  simp

lemma WorkerFunc_retry_step (eb : backoff) (jerr queue : String)
    (args : List String)
    (hL : eb.RetryLimit = (eb.BackoffStrategy.length : Int))
    (k : Nat) (hk : k < eb.BackoffStrategy.length) (s : RedisState)
    (hs : s.counter.getD (-1) = (k : Int) - 1) :
    eb.WorkerFunc (alwaysFailEnv jerr) queue args s =
      some (retryCallResult eb queue args k) := by
  have hsk : s.counter.getD (-1) + 1 = (k : Int) := by omega
  have hlim : ¬((k : Int) ≥ eb.RetryLimit) := by omega
  simp only [backoff.WorkerFunc, alwaysFailEnv, Option.getD_some, hsk,
    retryDelay_lt eb k hk, hlim, if_false, Bool.false_eq_true]
  by_cases hd : delayAt eb k ≤ 0 <;>
    simp [hd, retryCallResult, scheduledResub]

lemma WorkerFunc_exhaust_step (eb : backoff) (jerr queue : String)
    (args : List String)
    (hL : eb.RetryLimit = (eb.BackoffStrategy.length : Int))
    (hne : eb.BackoffStrategy ≠ []) (s : RedisState)
    (hs : s.counter.getD (-1) = (eb.BackoffStrategy.length : Int) - 1) :
    eb.WorkerFunc (alwaysFailEnv jerr) queue args s =
      some (exhaustedCallResult eb jerr) := by
  have hsk : s.counter.getD (-1) + 1 = (eb.BackoffStrategy.length : Int) := by
    omega
  have hlim : ((eb.BackoffStrategy.length : Int) ≥ eb.RetryLimit) := by omega
  simp only [backoff.WorkerFunc, alwaysFailEnv, Option.getD_some, hsk,
    retryDelay_ge eb _ hne (le_refl _), hlim, if_true, Bool.false_eq_true]
  simp [exhaustedCallResult]

lemma iterateCalls_zero (eb : backoff) (env : Env) (queue : String)
    (args : List String) (s : RedisState) :
    iterateCalls eb env queue args 0 s = some (s, []) := rfl

lemma iterateCalls_succ (eb : backoff) (env : Env) (queue : String)
    (args : List String) (n : Nat) (s : RedisState) :
    iterateCalls eb env queue args (n + 1) s =
      match eb.WorkerFunc env queue args s with
      | none => none
      | some r =>
        match iterateCalls eb env queue args n r.state with
        | none => none
        | some (s', rs) => some (s', r :: rs) := rfl

lemma range_map_shift_rcr (eb : backoff) (queue : String) (args : List String)
    (n j : Nat) :
    retryCallResult eb queue args j ::
      (List.range n).map (fun i => retryCallResult eb queue args (j + 1 + i)) =
      (List.range (n + 1)).map (fun i => retryCallResult eb queue args (j + i)) := by
  rw [List.range_succ_eq_map, List.map_cons, List.map_map]
  refine congrArg₂ _ (by rw [Nat.add_zero]) ?_
  refine List.map_congr_left (fun i _ => ?_)
  simp only [Function.comp_apply]
  congr 1
  omega

lemma iterateCalls_always_fail (eb : backoff) (jerr queue : String)
    (args : List String)
    (hL : eb.RetryLimit = (eb.BackoffStrategy.length : Int))
    (hne : eb.BackoffStrategy ≠ []) :
    ∀ (n j : Nat) (s : RedisState), j + n = eb.BackoffStrategy.length →
      s.counter.getD (-1) = (j : Int) - 1 →
      iterateCalls eb (alwaysFailEnv jerr) queue args (n + 1) s =
        some ({ counter := none, ttl := none },
          (List.range n).map (fun i => retryCallResult eb queue args (j + i)) ++
            [exhaustedCallResult eb jerr])
  | 0, j, s, hj, hs => by
      have hjL : j = eb.BackoffStrategy.length := by omega
      subst hjL
      rw [iterateCalls_succ, WorkerFunc_exhaust_step eb jerr queue args hL hne s hs]
      simp [iterateCalls_zero, exhaustedCallResult]
  | n + 1, j, s, hj, hs => by
      have hjk : j < eb.BackoffStrategy.length := by omega
      have ih := iterateCalls_always_fail eb jerr queue args hL hne n (j + 1)
        (retryCallResult eb queue args j).state (by omega)
        (by simp [retryCallResult])
      rw [iterateCalls_succ, WorkerFunc_retry_step eb jerr queue args hL j hjk s hs]
      simp only [ih]
      rw [← List.cons_append, range_map_shift_rcr]

/-! ### Claim C2 -/

/-- C2 (amended): for every schedule of length `L ≥ 1` wired as in
`NewBackoff` (`RetryLimit = L`), a job that fails on every attempt is
resubmitted exactly `L` times — once per call `1 .. L`, with the delays
`schedule[0], …, schedule[L-1]` taken in schedule order — and then fails
terminally on call `L + 1` (attempt number `L` as observed by the
counter): that call returns an error and performs no resubmission, and
the counter key is deleted. -/
theorem C2_exhaustion_run (eb : backoff) (jerr queue : String)
    (args : List String)
    (hL : eb.RetryLimit = (eb.BackoffStrategy.length : Int))
    (hne : eb.BackoffStrategy ≠ []) :
    iterateCalls eb (alwaysFailEnv jerr) queue args
      (eb.BackoffStrategy.length + 1) { counter := none, ttl := none } =
    some ({ counter := none, ttl := none },
      (List.range eb.BackoffStrategy.length).map
        (fun i => retryCallResult eb queue args i) ++
        [exhaustedCallResult eb jerr]) := by
  have h := iterateCalls_always_fail eb jerr queue args hL hne
    eb.BackoffStrategy.length 0 { counter := none, ttl := none }
    (by omega) (by simp)
  simpa using h

/-- C2 as stated is false: take the schedule `[0]` of length `L = 1`
(with `RetryLimit = 1` as `NewBackoff` would set it).  The claim predicts
`L − 1 = 0` resubmissions with terminal failure on the 1st observed
attempt; instead the 1st call returns no error and resubmits the job. -/
theorem C2_counterexample :
    ({ jobName := "j", RetryLimit := 1, BackoffStrategy := [0] } : backoff).WorkerFunc
        (alwaysFailEnv "e") "q" [] { counter := none, ttl := none } =
      some { result := none, state := { counter := some 0, ttl := some 3600 },
             jobRan := true, expireSet := some 3600,
             resub := some (.enqueue "q" "j" []) } := by
  decide

/-- Witness for `C2_exhaustion_run` at the default backoff. -/
theorem C2_witness :
    (NewBackoff "j").RetryLimit = ((NewBackoff "j").BackoffStrategy.length : Int) ∧
    (NewBackoff "j").BackoffStrategy ≠ [] ∧
    iterateCalls (NewBackoff "j") (alwaysFailEnv "e") "q" []
      ((NewBackoff "j").BackoffStrategy.length + 1)
      { counter := none, ttl := none } =
    some ({ counter := none, ttl := none },
      (List.range (NewBackoff "j").BackoffStrategy.length).map
        (fun i => retryCallResult (NewBackoff "j") "q" [] i) ++
        [exhaustedCallResult (NewBackoff "j") "e"]) :=
  ⟨by decide, by decide,
    C2_exhaustion_run (NewBackoff "j") "e" "q" [] (by decide) (by decide)⟩

/-! ### Claims C3, C4, C5 -/

/-- C3: when the wrapped job fails, the attempt number has not reached the
retry limit, the schedule lookup does not panic, and resubmission
succeeds, the closure returns nil — the job-execution error is suppressed. -/
theorem C3_retry_suppresses_error (eb : backoff) (env : Env) (queue : String)
    (args : List String) (s : RedisState) (jerr : String) (d : Int)
    (h1 : env.getConnErr = none) (h2 : env.setnxErr = none)
    (h3 : env.incrErr = none) (h4 : env.jobResult = some jerr)
    (h5 : attemptOf s < eb.RetryLimit)
    (h6 : eb.retryDelay (attemptOf s) = some d)
    (h7 : env.enqueueErr = none) :
    ∃ r, eb.WorkerFunc env queue args s = some r ∧ r.result = none := by
  have h5' : ¬(attemptOf s ≥ eb.RetryLimit) := by omega
  simp only [attemptOf] at h5' h6
  simp only [backoff.WorkerFunc, h1, h2, h3, h4, h7, Option.getD_some, h6, h5',
    if_false]
  by_cases hd : d ≤ 0 <;> simp [hd]

/-- Witness for `C3_retry_suppresses_error`. -/
theorem C3_witness :
    attemptOf { counter := none, ttl := none } < (NewBackoff "j").RetryLimit ∧
    (NewBackoff "j").retryDelay (attemptOf { counter := none, ttl := none }) =
      some 0 ∧
    ∃ r, (NewBackoff "j").WorkerFunc (alwaysFailEnv "e") "q" []
        { counter := none, ttl := none } = some r ∧ r.result = none :=
  ⟨by decide, by decide,
    C3_retry_suppresses_error (NewBackoff "j") (alwaysFailEnv "e") "q" []
      { counter := none, ttl := none } "e" 0 rfl rfl rfl rfl (by decide)
      (by decide) rfl⟩

/-- C4: when the wrapped job fails, a retry is still permitted, and the
re-enqueue fails, the closure returns the resubmission error. -/
theorem C4_enqueue_error_propagates (eb : backoff) (env : Env)
    (queue : String) (args : List String) (s : RedisState)
    (jerr qerr : String) (d : Int)
    (h1 : env.getConnErr = none) (h2 : env.setnxErr = none)
    (h3 : env.incrErr = none) (h4 : env.jobResult = some jerr)
    (h5 : attemptOf s < eb.RetryLimit)
    (h6 : eb.retryDelay (attemptOf s) = some d)
    (h7 : env.enqueueErr = some qerr) :
    ∃ r, eb.WorkerFunc env queue args s = some r ∧ r.result = some qerr := by
  have h5' : ¬(attemptOf s ≥ eb.RetryLimit) := by omega
  simp only [attemptOf] at h5' h6
  simp only [backoff.WorkerFunc, h1, h2, h3, h4, h7, Option.getD_some, h6, h5',
    if_false]
  by_cases hd : d ≤ 0 <;> simp [hd]

/-- The environment of `C4_witness`: healthy store, failing worker,
failing queue gateway. -/
def envEnqueueErr : Env :=
  { alwaysFailEnv "e" with enqueueErr := some "queue down" }

/-- Witness for `C4_enqueue_error_propagates`. -/
theorem C4_witness :
    attemptOf { counter := none, ttl := none } < (NewBackoff "j").RetryLimit ∧
    ∃ r, (NewBackoff "j").WorkerFunc envEnqueueErr "q" []
        { counter := none, ttl := none } = some r ∧ r.result = some "queue down" :=
  ⟨by decide,
    C4_enqueue_error_propagates (NewBackoff "j") envEnqueueErr "q" []
      { counter := none, ttl := none } "e" "queue down" 0 rfl rfl rfl rfl
      (by decide) (by decide) rfl⟩

/-- C5: a failure obtaining the connection, of the SETNX, or of the INCR
is returned immediately and the wrapped job is never executed. -/
theorem C5_store_failure_aborts (eb : backoff) (env : Env) (queue : String)
    (args : List String) (s : RedisState) :
    (∀ e, env.getConnErr = some e →
      eb.WorkerFunc env queue args s =
        some { result := some e, state := s, jobRan := false,
               expireSet := none, resub := none }) ∧
    (∀ e, env.getConnErr = none → env.setnxErr = some e →
      eb.WorkerFunc env queue args s =
        some { result := some e, state := s, jobRan := false,
               expireSet := none, resub := none }) ∧
    (∀ e, env.getConnErr = none → env.setnxErr = none → env.incrErr = some e →
      eb.WorkerFunc env queue args s =
        some { result := some e,
               state := { s with counter := some (s.counter.getD (-1)) },
               jobRan := false, expireSet := none, resub := none }) := by
  refine ⟨fun e h1 => ?_, fun e h1 h2 => ?_, fun e h1 h2 h3 => ?_⟩ <;>
    simp [backoff.WorkerFunc, h1] <;> simp_all

/-- The environment of `C5_witness`: the INCR fails. -/
def envIncrErr : Env :=
  { alwaysFailEnv "e" with incrErr := some "incr failed" }

/-- Witness for `C5_store_failure_aborts` (INCR-failure conjunct). -/
theorem C5_witness :
    (NewBackoff "j").WorkerFunc envIncrErr "q" [] { counter := none, ttl := none } =
      some { result := some "incr failed", state := { counter := some (-1), ttl := none },
             jobRan := false, expireSet := none, resub := none } :=
  (C5_store_failure_aborts (NewBackoff "j") envIncrErr "q" []
    { counter := none, ttl := none }).2.2 "incr failed" rfl rfl rfl

/-! ### Claims C6, C7 -/

/-- C6: once the INCR has yielded attempt number `N = attemptOf s` and the
schedule lookup does not panic, the EXPIRE after the job sets the key's
TTL to `retryDelay N + 3600` (whether the job succeeded or failed), and a
failure of the EXPIRE or of a later DEL never changes the invocation's
returned result. -/
theorem C6_expire_ttl_and_bookkeeping_tolerance (eb : backoff) (env : Env)
    (queue : String) (args : List String) (s : RedisState) (d : Int)
    (b1 b2 : Bool) :
    (env.getConnErr = none → env.setnxErr = none → env.incrErr = none →
      env.expireFails = false → eb.retryDelay (attemptOf s) = some d →
      ∃ r, eb.WorkerFunc env queue args s = some r ∧
        r.expireSet = some (d + 3600)) ∧
    ((eb.WorkerFunc { env with expireFails := b1, delFails := b2 }
        queue args s).map (fun r => r.result) =
      (eb.WorkerFunc env queue args s).map (fun r => r.result)) := by
  constructor
  · intro h1 h2 h3 h4 h6
    simp only [attemptOf] at h6
    cases hj : env.jobResult <;> cases he : env.enqueueErr <;>
      by_cases hge : s.counter.getD (-1) + 1 ≥ eb.RetryLimit <;>
      by_cases hd : d ≤ 0 <;>
      simp [backoff.WorkerFunc, h1, h2, h3, h4, h6, hj, he, hge, hd]
  · rcases env with ⟨g, sx, ic, jr, ef, qe, df⟩
    cases g <;> cases sx <;> cases ic <;>
      simp only [backoff.WorkerFunc, Option.map_some, Option.map_none]
    all_goals
      cases hrd : backoff.retryDelay eb (s.counter.getD (-1) + 1) <;>
        cases jr <;> cases qe <;> simp [hrd] <;> split_ifs <;> simp

/-- Witness for `C6_expire_ttl_and_bookkeeping_tolerance`. -/
theorem C6_witness :
    (NewBackoff "j").retryDelay (attemptOf { counter := none, ttl := none }) =
      some 0 ∧
    (∃ r, (NewBackoff "j").WorkerFunc (alwaysFailEnv "e") "q" []
        { counter := none, ttl := none } = some r ∧
        r.expireSet = some (0 + 3600)) ∧
    ((NewBackoff "j").WorkerFunc
        { alwaysFailEnv "e" with expireFails := true, delFails := true } "q" []
        { counter := none, ttl := none }).map (fun r => r.result) =
      ((NewBackoff "j").WorkerFunc (alwaysFailEnv "e") "q" []
        { counter := none, ttl := none }).map (fun r => r.result) :=
  ⟨by decide,
    (C6_expire_ttl_and_bookkeeping_tolerance (NewBackoff "j") (alwaysFailEnv "e")
      "q" [] { counter := none, ttl := none } 0 true true).1
      rfl rfl rfl rfl (by decide),
    (C6_expire_ttl_and_bookkeeping_tolerance (NewBackoff "j") (alwaysFailEnv "e")
      "q" [] { counter := none, ttl := none } 0 true true).2⟩

/-- C7: `retryDelay` returns the schedule entry at the given zero-based
index when that index is valid, and for every attempt number exceeding
the last valid index of a non-empty schedule it returns the last entry. -/
theorem C7_retryDelay_clamps (eb : backoff) (a : Int) :
    (0 ≤ a → a.toNat < eb.BackoffStrategy.length →
      eb.retryDelay a = eb.BackoffStrategy.get? a.toNat) ∧
    (eb.BackoffStrategy ≠ [] → (eb.BackoffStrategy.length : Int) ≤ a →
      eb.retryDelay a = eb.BackoffStrategy.getLast?) := by
  constructor
  · intro h0 hlt
    have ha : a = ((a.toNat : Nat) : Int) := by omega
    conv_lhs => rw [ha]
    rw [retryDelay_lt eb a.toNat hlt, delayAt,
      List.getD_eq_getElem _ _ hlt, List.get?_eq_getElem?,
      List.getElem?_eq_getElem hlt]
  · intro hne hge
    have h4 : eb.BackoffStrategy.length - 1 < eb.BackoffStrategy.length := by
      have := List.length_pos.mpr hne; omega
    rw [retryDelay_ge eb a hne hge, List.getLast?_eq_getLast_of_ne_nil hne,
      List.getLast_eq_getElem, delayAt, List.getD_eq_getElem _ _ h4]

/-- Witness for `C7_retryDelay_clamps`: in-range index 2 and the clamped
attempt 50 on the default schedule. -/
theorem C7_witness :
    ((0 : Int) ≤ 2 ∧ (2 : Int).toNat < (NewBackoff "j").BackoffStrategy.length ∧
      (NewBackoff "j").retryDelay 2 =
        (NewBackoff "j").BackoffStrategy.get? (2 : Int).toNat) ∧
    ((NewBackoff "j").BackoffStrategy ≠ [] ∧
      ((NewBackoff "j").BackoffStrategy.length : Int) ≤ 50 ∧
      (NewBackoff "j").retryDelay 50 = (NewBackoff "j").BackoffStrategy.getLast?) :=
  ⟨⟨by decide, by decide,
      (C7_retryDelay_clamps (NewBackoff "j") 2).1 (by decide) (by decide)⟩,
    ⟨by decide, by decide,
      (C7_retryDelay_clamps (NewBackoff "j") 50).2 (by decide) (by decide)⟩⟩

/-! ### Claims C8, C9, C10 -/

/-- C8 (amended): the retry key is a pure function of the job name and
the canonicalized argument string — equal job names and equal
canonicalized argument strings always yield the identical key, whatever
the other fields of the two `backoff` values are. -/
theorem C8_identity_deterministic (eb1 eb2 : backoff)
    (args1 args2 : List String) (hj : eb1.jobName = eb2.jobName)
    (hc : canonicalArgs args1 = canonicalArgs args2) :
    eb1.retryKey args1 = eb2.retryKey args2 := by
  unfold backoff.retryKey retryIdentifier
  rw [hj, hc]

/-- C8 is false as stated: the canonicalization joins the rendered
arguments with `"-"`, which is not injective, so the *distinct* argument
lists `["a-b"]` and `["a", "b"]` produce the identical identity with
certainty — not merely up to hash collisions. -/
theorem C8_counterexample :
    (["a-b"] : List String) ≠ ["a", "b"] ∧
    retryIdentifier ["a-b"] = retryIdentifier ["a", "b"] := by
  refine ⟨by decide, ?_⟩
  unfold retryIdentifier
  rw [show canonicalArgs ["a-b"] = canonicalArgs ["a", "b"] from by decide]

/-- Witness for `C8_identity_deterministic`, at two distinct argument
lists whose canonicalized strings coincide. -/
theorem C8_witness :
    canonicalArgs ["a-b"] = canonicalArgs ["a", "b"] ∧
    (NewBackoff "j").retryKey ["a-b"] = (NewBackoff "j").retryKey ["a", "b"] :=
  ⟨by decide,
    C8_identity_deterministic (NewBackoff "j") (NewBackoff "j") ["a-b"]
      ["a", "b"] rfl (by decide)⟩

/-- C9: when the job fails, a retry is still permitted, and the
resubmission fails, the counter key is not deleted: it keeps its
incremented value and the TTL the EXPIRE just set. -/
theorem C9_failed_enqueue_keeps_counter (eb : backoff) (env : Env)
    (queue : String) (args : List String) (s : RedisState)
    (jerr qerr : String) (d : Int)
    (h1 : env.getConnErr = none) (h2 : env.setnxErr = none)
    (h3 : env.incrErr = none) (h4 : env.jobResult = some jerr)
    (h5 : env.expireFails = false)
    (h6 : attemptOf s < eb.RetryLimit)
    (h7 : eb.retryDelay (attemptOf s) = some d)
    (h8 : env.enqueueErr = some qerr) :
    eb.WorkerFunc env queue args s =
      some { result := some qerr,
             state := { counter := some (attemptOf s), ttl := some (d + 3600) },
             jobRan := true, expireSet := some (d + 3600), resub := none } := by
  have h6' : ¬(attemptOf s ≥ eb.RetryLimit) := by omega
  simp only [attemptOf] at h6' h7 ⊢
  simp only [backoff.WorkerFunc, h1, h2, h3, h4, h5, h8, Option.getD_some, h7,
    h6', if_false, Bool.false_eq_true]
  by_cases hd : d ≤ 0 <;> simp [hd]

/-- Witness for `C9_failed_enqueue_keeps_counter`. -/
theorem C9_witness :
    attemptOf { counter := none, ttl := none } < (NewBackoff "j").RetryLimit ∧
    (NewBackoff "j").WorkerFunc envEnqueueErr "q" []
        { counter := none, ttl := none } =
      some { result := some "queue down",
             state := { counter := some 0, ttl := some 3600 },
             jobRan := true, expireSet := some 3600, resub := none } :=
  ⟨by decide,
    C9_failed_enqueue_keeps_counter (NewBackoff "j") envEnqueueErr "q" []
      { counter := none, ttl := none } "e" "queue down" 0 rfl rfl rfl rfl rfl
      (by decide) (by decide) rfl⟩

/-- C10: for every attempt number `≥ 0` and non-empty `BackoffStrategy`,
`retryDelay` indexes within bounds and returns an element of the
schedule; with an empty `BackoffStrategy` (the field is public and
user-settable) the lookup is out of bounds — a panic in the Go program,
`none` here. -/
theorem C10_retryDelay_safety (eb : backoff) (a : Int) :
    (eb.BackoffStrategy ≠ [] → 0 ≤ a →
      ∃ d, eb.retryDelay a = some d ∧ d ∈ eb.BackoffStrategy) ∧
    (∀ eb2 : backoff, eb2.BackoffStrategy = [] → eb2.retryDelay a = none) := by
  constructor
  · intro hne h0
    by_cases hlt : a.toNat < eb.BackoffStrategy.length
    · refine ⟨delayAt eb a.toNat, ?_, ?_⟩
      · have ha : a = ((a.toNat : Nat) : Int) := by omega
        conv_lhs => rw [ha]
        exact retryDelay_lt eb a.toNat hlt
      · rw [delayAt, List.getD_eq_getElem _ _ hlt]
        exact List.getElem_mem hlt
    · have hge : (eb.BackoffStrategy.length : Int) ≤ a := by omega
      have h4 : eb.BackoffStrategy.length - 1 < eb.BackoffStrategy.length := by
        have := List.length_pos.mpr hne; omega
      refine ⟨delayAt eb (eb.BackoffStrategy.length - 1),
        retryDelay_ge eb a hne hge, ?_⟩
      rw [delayAt, List.getD_eq_getElem _ _ h4]
      exact List.getElem_mem h4
  · intro eb2 h
    simp [backoff.retryDelay, h]

/-- Witness for `C10_retryDelay_safety`. -/
theorem C10_witness :
    ((NewBackoff "j").BackoffStrategy ≠ [] ∧ (0 : Int) ≤ 4 ∧
      ∃ d, (NewBackoff "j").retryDelay 4 = some d ∧
        d ∈ (NewBackoff "j").BackoffStrategy) ∧
    ({ jobName := "j", RetryLimit := 0, BackoffStrategy := [] } : backoff).retryDelay
      4 = none :=
  ⟨⟨by decide, by decide,
      (C10_retryDelay_safety (NewBackoff "j") 4).1 (by decide) (by decide)⟩,
    (C10_retryDelay_safety (NewBackoff "j") 4).2
      { jobName := "j", RetryLimit := 0, BackoffStrategy := [] } rfl⟩

end GoworkerRetry
